import Mathlib

/-!
Shallow embedding of the data-preparation pipeline and the read-only query
operations of `src/app.py` (a single-file dashboard over a spreadsheet of
health-surveillance notification records).

Cell values of the table are modelled by `Value`: an integer code, a string,
a parsed date (as a day number relative to 1970-01-01), or the missing-value
marker `na` (pandas NaN/NaT).  A data frame `DF` is a list of column names
plus a list of rows; a row is an association list from column name to value,
and a column absent from a row reads as `na`.
-/

namespace ViolenciaTIY

/-- A cell value: integer code, string, date (day number since 1970-01-01),
or the missing marker (NaN/NaT). -/
inductive Value where
  | int (n : Int)
  | str (s : String)
  | date (d : Int)
  | na
deriving DecidableEq, Repr

abbrev Row := List (String × Value)

/-- Reading a column from a row; an absent key reads as the missing marker. -/
def Row.get (r : Row) (c : String) : Value :=
  match r with
  | [] => Value.na
  | (k, v) :: t => if k = c then v else Row.get t c

/-- Writing a column of a row (in-place update of the key when present,
appended otherwise). -/
def Row.set (r : Row) (c : String) (v : Value) : Row :=
  match r with
  | [] => [(c, v)]
  | (k, w) :: t => if k = c then (c, v) :: t else (k, w) :: Row.set t c v

/-- A data frame: the column names and the rows. -/
structure DF where
  cols : List String
  rows : List Row
deriving DecidableEq, Repr

/-- `c in df.columns`. -/
def DF.hasCol (df : DF) (c : String) : Bool :=
  decide (c ∈ df.cols)

/-- Row filtering (`df[mask]`): keeps the columns, keeps the rows passing the
predicate. -/
def DF.filterRows (df : DF) (p : Row → Bool) : DF :=
  { cols := df.cols, rows := df.rows.filter p }

/-- Column assignment `df[c] = f(row)`: the column list gains `c` when new,
and every row gets its value for `c` overwritten. -/
def DF.addCol (df : DF) (c : String) (f : Row → Value) : DF :=
  { cols := if df.hasCol c then df.cols else df.cols ++ [c],
    rows := df.rows.map (fun r => r.set c (f r)) }

/-- Per-value transformation of one existing column
(`df[c] = g(df[c])` applied elementwise). -/
def DF.mapCol (df : DF) (c : String) (g : Value → Value) : DF :=
  df.addCol c (fun r => g (r.get c))

/-! ## Calendar arithmetic

Day numbers relative to 1970-01-01 of a proleptic Gregorian civil date, and
the year of a day number (the standard era/year-of-era computation, written
with floor division). -/

/-- Day number (1970-01-01 is day 0) of the civil date `y-m-d`. -/
def daysFromCivil (y m d : Int) : Int :=
  let y2 := if m ≤ 2 then y - 1 else y
  let era := Int.fdiv y2 400
  let yoe := y2 - era * 400
  let mp := Int.emod (m + 9) 12
  let doy := Int.fdiv (153 * mp + 2) 5 + d - 1
  let doe := yoe * 365 + Int.fdiv yoe 4 - Int.fdiv yoe 100 + doy
  era * 146097 + doe - 719468

/-- Calendar year of a day number (1970-01-01 is day 0). -/
def yearOfDay (z0 : Int) : Int :=
  let z := z0 + 719468
  let era := Int.fdiv z 146097
  let doe := z - era * 146097
  let yoe := Int.fdiv (doe - Int.fdiv doe 1460 + Int.fdiv doe 36524 - Int.fdiv doe 146096) 365
  let y := yoe + era * 400
  let doy := doe - (365 * yoe + Int.fdiv yoe 4 - Int.fdiv yoe 100)
  let mp := Int.fdiv (5 * doy + 2) 153
  let m := Int.emod (mp + 2) 12 + 1
  if m ≤ 2 then y + 1 else y

/-! ## The preparation steps of `load_data` (src/app.py lines 26-56) -/

/-- The accepted female encodings of `df['CS_SEXO'].isin(['F', '2', 2])`. -/
def femaleCodes : List Value :=
  [.str "F", .str "2", .int 2]

/-- Membership test of one cell in the accepted set. -/
def isFemale (v : Value) : Bool :=
  decide (v ∈ femaleCodes)

/-- Step 1 (line 28-29): keep only female-coded rows; skipped when the
`CS_SEXO` column is absent. -/
def sexFilter (df : DF) : DF :=
  if df.hasCol "CS_SEXO" then
    df.filterRows (fun r => isFemale (r.get "CS_SEXO"))
  else df

/-- `pd.to_datetime(-, errors='coerce')` on one cell: a date stays a date,
anything else coerces to the missing marker. -/
def parseDate : Value → Value
  | .date d => .date d
  | _ => .na

/-- One iteration of the date loop: convert column `c` when it is present
in the source, skip it otherwise. -/
def dateStep1 (d : DF) (c : String) : DF :=
  if d.hasCol c then d.mapCol c parseDate else d

/-- Step 2 (lines 32-35): the loop over
`cols_data = ['DT_NOTIFIC', 'DT_NASC', 'DT_OCOR']`. -/
def dateStep (df : DF) : DF :=
  dateStep1 (dateStep1 (dateStep1 df "DT_NOTIFIC") "DT_NASC") "DT_OCOR"

/-- `.dt.year` of one cell. -/
def yearOf : Value → Value
  | .date d => .int (yearOfDay d)
  | _ => .na

/-- Line 37: `df['ANO_NOTIFICACAO'] = df['DT_NOTIFIC'].dt.year`.  The access
`df['DT_NOTIFIC']` is unguarded: it raises a `KeyError` when the column is
absent. -/
def yearStep (df : DF) : Except String DF :=
  if df.hasCol "DT_NOTIFIC" then
    .ok (df.addCol "ANO_NOTIFICACAO" (fun r => yearOf (r.get "DT_NOTIFIC")))
  else .error "KeyError: DT_NOTIFIC"

/-- One cell of `(df['DT_NOTIFIC'] - df['DT_NASC']).dt.days // 365.25`:
floor division of the day difference by 365.25 (= 1461/4), `na` when either
date is missing. -/
def ageOf : Value → Value → Value
  | .date n, .date b => .int (Int.fdiv (4 * (n - b)) 1461)
  | _, _ => .na

/-- Line 40: the age column.  Both date accesses are unguarded and raise a
`KeyError` when the column is absent. -/
def ageStep (df : DF) : Except String DF :=
  if df.hasCol "DT_NOTIFIC" then
    if df.hasCol "DT_NASC" then
      .ok (df.addCol "IDADE_CALCULADA"
        (fun r => ageOf (r.get "DT_NOTIFIC") (r.get "DT_NASC")))
    else .error "KeyError: DT_NASC"
  else .error "KeyError: DT_NOTIFIC"

/-- One cell of `pd.cut(-, bins=[0,9,19,24,59,120], labels=..., right=True)`:
the five right-closed intervals (0,9], (9,19], (19,24], (24,59], (59,120];
values outside them, and the missing marker, get no bracket. -/
def faixaOf : Value → Value
  | .int a =>
    if a ≤ 0 then .na
    else if a ≤ 9 then .str "Criança (0-9)"
    else if a ≤ 19 then .str "Adolescente (10-19)"
    else if a ≤ 24 then .str "Jovem (20-24)"
    else if a ≤ 59 then .str "Adulta (25-59)"
    else if a ≤ 120 then .str "Idosa (60+)"
    else .na
  | _ => .na

/-- Lines 41-43: the age-bracket column (total: `IDADE_CALCULADA` was just
created). -/
def faixaStep (df : DF) : DF :=
  df.addCol "FAIXA_ETARIA" (fun r => faixaOf (r.get "IDADE_CALCULADA"))

/-- `map_sinan` (line 46): the SINAN yes/no decode table. -/
def map_sinan : Value → Option String
  | .int 1 => some "Sim"
  | .int 2 => some "Não"
  | .int 9 => some "Ignorado"
  | .int 3 => some "Não se aplica"
  | .int 8 => some "Não se aplica"
  | _ => none

/-- `map_conjugal` (line 52): the marital-status decode table. -/
def map_conjugal : Value → Option String
  | .int 1 => some "Solteira"
  | .int 2 => some "Casada/União"
  | .int 3 => some "Viúva"
  | .int 4 => some "Separada"
  | .int 8 => some "N/A"
  | .int 9 => some "Ignorado"
  | _ => none

/-- `map_sexo` (line 202): the perpetrator-sex decode table. -/
def map_sexo : Value → Option String
  | .int 1 => some "Masculino"
  | .int 2 => some "Feminino"
  | .int 3 => some "Ambos"
  | .int 9 => some "Ignorado"
  | _ => none

/-- `series.map(table).fillna('Ignorado')` on one cell: a code outside the
table (the missing marker included) decodes to the explicit default. -/
def decodeWith (m : Value → Option String) (v : Value) : Value :=
  match m v with
  | some s => .str s
  | none => .str "Ignorado"

/-- Lines 48-49: the decoded alcohol-use column; skipped when `AUTOR_ALCO`
is absent. -/
def alcoStep (df : DF) : DF :=
  if df.hasCol "AUTOR_ALCO" then
    df.addCol "ALCOOL_DESC" (fun r => decodeWith map_sinan (r.get "AUTOR_ALCO"))
  else df

/-- Lines 53-54: the decoded marital-status column; skipped when
`SIT_CONJUG` is absent. -/
def conjugStep (df : DF) : DF :=
  if df.hasCol "SIT_CONJUG" then
    df.addCol "SIT_CONJUG_DESC" (fun r => decodeWith map_conjugal (r.get "SIT_CONJUG"))
  else df

/-- The whole post-load preparation (lines 26-56), with the unguarded column
accesses surfaced as `Except.error` (an uncaught `KeyError`: the `try` block
covers only the file read). -/
def prepare (raw : DF) : Except String DF :=
  match yearStep (dateStep (sexFilter raw)) with
  | .error e => .error e
  | .ok d1 =>
    match ageStep d1 with
    | .error e => .error e
    | .ok d2 => .ok (conjugStep (alcoStep (faixaStep d2)))

/-! ## Load outcome and top-level rendering (lines 14-24, 58-61, 214-215) -/

/-- Outcome of `load_data()`: the `except` branch reports the read error and
returns `None`; an uncaught exception in the preparation block crashes the
script run; otherwise the enriched table is returned (and cached). -/
inductive LoadResult where
  | unavailable (cause : String)
  | crash (cause : String)
  | loaded (df : DF)
deriving DecidableEq, Repr

/-- `load_data()`, as a function of the result of the file read
(`pd.read_excel`, the only operation inside the `try`). -/
def load_data (readResult : Except String DF) : LoadResult :=
  match readResult with
  | .error e => .unavailable ("Erro ao ler o arquivo: " ++ e)
  | .ok raw =>
    match prepare raw with
    | .error e => .crash e
    | .ok df => .loaded df

/-- The table carried by a load outcome, when there is one. -/
def LoadResult.tableOf : LoadResult → Option DF
  | .loaded df => some df
  | _ => none

/-- What the page shows at top level (lines 61 and 214-215): the dashboard
over the table, or the awaiting-data placeholder when `load_data` returned
`None`. -/
inductive AppOutput where
  | dashboard (df : DF)
  | placeholder (msg : String)
  | crashed (cause : String)
deriving DecidableEq, Repr

def render : LoadResult → AppOutput
  | .loaded df => .dashboard df
  | .unavailable _ => .placeholder "Aguardando carregamento dos dados."
  | .crash e => .crashed e

/-! ## Read-only query operations of the presentation code -/

/-- Number of rows whose value in column `c` equals `v`
(`len(df[df[c] == v])`). -/
def countEq (df : DF) (c : String) (v : Value) : Nat :=
  (df.rows.filter (fun r => decide (r.get c = v))).length

/-- Line 69: `df[df['ANO_NOTIFICACAO'].isin(anos_sel)]`, the year-filtered
sub-view. -/
def yearFilter (df : DF) (anos : List Value) : DF :=
  df.filterRows (fun r => anos.any (fun a => decide (r.get "ANO_NOTIFICACAO" = a)))

/-- Line 81: `len(df_filtered[df_filtered['VIOL_FISIC'] == 1])`.  The column
access is unguarded and raises when `VIOL_FISIC` is absent. -/
def viol_fisica (df : DF) : Except String Nat :=
  if df.hasCol "VIOL_FISIC" then .ok (countEq df "VIOL_FISIC" (.int 1))
  else .error "KeyError: VIOL_FISIC"

/-- Line 85: `len(df_filtered[df_filtered.get('AUTOR_ALCO') == 1])`.  When
the column is absent, `.get` yields `None`, the comparison collapses to the
scalar `False`, and indexing by it raises a `KeyError`. -/
def alcool_sim (df : DF) : Except String Nat :=
  if df.hasCol "AUTOR_ALCO" then .ok (countEq df "AUTOR_ALCO" (.int 1))
  else .error "KeyError: False"

/-- The percentage formula of line 86 as a function of an arbitrary
numerator: `(num / len(df) * 100) if len(df) > 0 else 0`. -/
def pct_of (num : Nat) (df : DF) : ℚ :=
  if 0 < df.rows.length then (num : ℚ) / (df.rows.length : ℚ) * 100 else 0

/-- Lines 85-86: the alcohol percentage metric. -/
def pct_alcool (df : DF) : Except String ℚ :=
  match alcool_sim df with
  | .error e => .error e
  | .ok n => .ok (pct_of n df)

/-- Line 203: `df_filtered['SEXO_AUTOR_DESC'] = df_filtered['AUTOR_SEXO']
.map(map_sexo).fillna('Ignorado')`, run only when `AUTOR_SEXO` is present.
It assigns a new column to the year-filtered sub-view. -/
def sexoAutorStep (dfF : DF) : DF :=
  if dfF.hasCol "AUTOR_SEXO" then
    dfF.addCol "SEXO_AUTOR_DESC" (fun r => decodeWith map_sexo (r.get "AUTOR_SEXO"))
  else dfF

/-! ## Indicator-group aggregation (lines 148-156 and 170-178) -/

/-- Python `c.startswith(pre)`, decided on the character lists. -/
def strStartsWith (c pre : String) : Bool :=
  decide (c.data.take pre.data.length = pre.data)

/-- The qualifying columns of one indicator family:
`[c for c in df.columns if c.startswith(pre) and c != excl]`. -/
def indicatorCols (df : DF) (pre excl : String) : List String :=
  df.cols.filter (fun c => strStartsWith c pre && decide (c ≠ excl))

/-- `len(df[df[c] == 1])` for one indicator column. -/
def countOne (df : DF) (c : String) : Nat :=
  countEq df c (.int 1)

/-- Fuel-driven scan for `removeSubAll`; the fuel starts at the length of
the list, and every step consumes at least one character, so the fuel never
runs out. -/
def removeSubAllF (pat : List Char) : Nat → List Char → List Char
  | _, [] => []
  | 0, l => l
  | fuel + 1, c :: t =>
    if pat ≠ [] ∧ (c :: t).take pat.length = pat then
      removeSubAllF pat fuel ((c :: t).drop pat.length)
    else
      c :: removeSubAllF pat fuel t

/-- Left-to-right non-overlapping removal of every occurrence of `pat`
(Python `str.replace(pat, '')`). -/
def removeSubAll (pat s : List Char) : List Char :=
  removeSubAllF pat s.length s

/-- Python `str.title()`: the first letter of each alphabetic run is
uppercased, the rest lowercased. -/
def pyTitleAux : Bool → List Char → List Char
  | _, [] => []
  | prevAlpha, ch :: t =>
    if ch.isAlpha then
      (if prevAlpha then ch.toLower else ch.toUpper) :: pyTitleAux true t
    else
      ch :: pyTitleAux false t

def pyTitle (s : String) : String :=
  String.mk (pyTitleAux false s.data)

/-- `col.replace(pre, '').title()`: the label the code computes for an
indicator column (every occurrence of the family marker is removed, not only
a leading one). -/
def cleanName (pre c : String) : String :=
  pyTitle (String.mk (removeSubAll pre.data c.data))

/-- The label the specification describes: strip the family marker from the
front of the column name only, then title-case the remainder.  Kept separate
from `cleanName` so the two can be compared. -/
def specStripLabel (pre c : String) : String :=
  pyTitle (c.drop pre.length)

/-- Python dict insertion: overwrite the value when the key exists, append
at the end otherwise. -/
def dictInsert (d : List (String × Nat)) (k : String) (v : Nat) :
    List (String × Nat) :=
  if d.any (fun p => decide (p.1 = k)) then
    d.map (fun p => if p.1 = k then (k, v) else p)
  else d ++ [(k, v)]

/-- The dict-building loop over one indicator family: count each qualifying
column and record it under its cleaned label when the count is positive. -/
def aggIndicator (df : DF) (pre excl : String) : List (String × Nat) :=
  (indicatorCols df pre excl).foldl
    (fun d c =>
      let qtd := countOne df c
      if 0 < qtd then dictInsert d (cleanName pre c) qtd else d)
    []

/-- Lines 148-154: the means-used aggregation (`AG_` family, `AG_OUTROS`
excluded). -/
def dados_meio (df : DF) : List (String × Nat) :=
  aggIndicator df "AG_" "AG_OUTROS"

/-- Lines 170-176: the relationship aggregation (`REL_` family, `REL_TRAB`
excluded). -/
def dados_vinculo (df : DF) : List (String × Nat) :=
  aggIndicator df "REL_" "REL_TRAB"

/-- Insertion into a list kept in non-increasing count order. -/
def insertDesc (p : String × Nat) : List (String × Nat) → List (String × Nat)
  | [] => [p]
  | q :: t => if q.2 ≤ p.2 then p :: q :: t else q :: insertDesc p t

/-- `sort_values('Qtd', ascending=False)`: sort by count, descending. -/
def sortDesc : List (String × Nat) → List (String × Nat)
  | [] => []
  | p :: t => insertDesc p (sortDesc t)

/-- `sort_values('Qtd', ascending=False).head(n)`. -/
def topN (n : Nat) (d : List (String × Nat)) : List (String × Nat) :=
  (sortDesc d).take n

/-- Line 156: the top-5 means-used chart data. -/
def df_meio (df : DF) : List (String × Nat) :=
  topN 5 (dados_meio df)

/-- Line 178: the top-7 relationship chart data. -/
def df_vinculo (df : DF) : List (String × Nat) :=
  topN 7 (dados_vinculo df)

/-! ## Concrete tables used to instantiate the theorems -/

/-- One conforming source row: sex code 2, notified 2021-03-10, born
2011-03-11 (the scenario of the specification). -/
def exScenario : DF :=
  ⟨["CS_SEXO", "DT_NOTIFIC", "DT_NASC"],
   [[("CS_SEXO", Value.int 2),
     ("DT_NOTIFIC", Value.date (daysFromCivil 2021 3 10)),
     ("DT_NASC", Value.date (daysFromCivil 2011 3 11))]]⟩

/-- A source row notified on its own birth date: computed age 0. -/
def exAgeZero : DF :=
  ⟨["CS_SEXO", "DT_NOTIFIC", "DT_NASC"],
   [[("CS_SEXO", Value.int 2),
     ("DT_NOTIFIC", Value.date (daysFromCivil 2021 3 10)),
     ("DT_NASC", Value.date (daysFromCivil 2021 3 10))]]⟩

/-- A two-row source: one male-coded row (code 1) and one female-coded row
(code 2). -/
def exSexo : DF :=
  ⟨["CS_SEXO", "DT_NOTIFIC", "DT_NASC"],
   [[("CS_SEXO", Value.int 1),
     ("DT_NOTIFIC", Value.date 0), ("DT_NASC", Value.date 0)],
    [("CS_SEXO", Value.int 2),
     ("DT_NOTIFIC", Value.date 0), ("DT_NASC", Value.date 0)]]⟩

/-- A year-annotated view with a perpetrator-sex column, for the sub-view
mutation statements. -/
def exView : DF :=
  ⟨["ANO_NOTIFICACAO", "AUTOR_SEXO"],
   [[("ANO_NOTIFICACAO", Value.int 2020), ("AUTOR_SEXO", Value.int 1)]]⟩

/-- A table whose means-used family contains a column with an interior
occurrence of the family marker. -/
def exMeioNested : DF :=
  ⟨["AG_AG_FOGO"], [[("AG_AG_FOGO", Value.int 1)]]⟩

/-- A small means-used table: `AG_FORCA` twice, `AG_FOGO` once, `AG_OUTROS`
(excluded) once, `AG_ENFOR` never. -/
def exMeio : DF :=
  ⟨["AG_FOGO", "AG_FORCA", "AG_ENFOR", "AG_OUTROS"],
   [[("AG_FOGO", Value.int 1), ("AG_FORCA", Value.int 1), ("AG_OUTROS", Value.int 1)],
    [("AG_FORCA", Value.int 1)]]⟩

/-! ## Helper lemmas -/

theorem Row.get_set (r : Row) (c c2 : String) (v : Value) :
    (r.set c v).get c2 = if c = c2 then v else r.get c2 := by
  induction r with
  | nil => simp [Row.set, Row.get]
  | cons p t ih =>
    obtain ⟨k, w⟩ := p
    by_cases hkc : k = c
    · subst hkc
      by_cases hc2 : k = c2 <;> simp [Row.set, Row.get, hc2]
    · by_cases hc2 : k = c2
      · subst hc2
        have : ¬ c = k := fun h => hkc h.symm
        simp [Row.set, Row.get, hkc, this]
      · simp [Row.set, Row.get, hkc, hc2, ih]

theorem DF.hasCol_iff (df : DF) (c : String) :
    df.hasCol c = true ↔ c ∈ df.cols := by
  simp [DF.hasCol]

theorem DF.addCol_cols (df : DF) (c : String) (f : Row → Value) :
    (df.addCol c f).cols = if df.hasCol c then df.cols else df.cols ++ [c] := rfl

theorem DF.addCol_rows (df : DF) (c : String) (f : Row → Value) :
    (df.addCol c f).rows = df.rows.map (fun r => r.set c (f r)) := rfl

theorem DF.hasCol_addCol_of (df : DF) (c c2 : String) (f : Row → Value)
    (h : df.hasCol c2 = true) : (df.addCol c f).hasCol c2 = true := by
  rw [DF.hasCol_iff] at h ⊢
  rw [DF.addCol_cols]
  split
  · exact h
  · exact List.mem_append_left _ h

theorem sexFilter_cols (df : DF) : (sexFilter df).cols = df.cols := by
  unfold sexFilter DF.filterRows
  split <;> rfl

theorem dateStep1_cols (d : DF) (c : String) : (dateStep1 d c).cols = d.cols := by
  unfold dateStep1 DF.mapCol
  split
  · rw [DF.addCol_cols]
    simp_all
  · rfl

theorem dateStep_cols (df : DF) : (dateStep df).cols = df.cols := by
  unfold dateStep
  rw [dateStep1_cols, dateStep1_cols, dateStep1_cols]

theorem sexFilter_hasCol (df : DF) (c : String) :
    (sexFilter df).hasCol c = df.hasCol c := by
  simp [DF.hasCol, sexFilter_cols]

theorem dateStep_hasCol (df : DF) (c : String) :
    (dateStep df).hasCol c = df.hasCol c := by
  simp [DF.hasCol, dateStep_cols]

/-- The decoded value is always a string. -/
theorem decodeWith_isStr (m : Value → Option String) (v : Value) :
    ∃ s, decodeWith m v = Value.str s := by
  unfold decodeWith
  cases m v <;> exact ⟨_, rfl⟩

theorem dictInsert_mem {p : String × Nat} {d : List (String × Nat)}
    {k : String} {v : Nat} (h : p ∈ dictInsert d k v) :
    p = (k, v) ∨ p ∈ d := by
  unfold dictInsert at h
  split at h
  · obtain ⟨q, hq, hfq⟩ := List.mem_map.mp h
    by_cases hk : q.1 = k
    · simp only [hk, if_pos] at hfq
      exact Or.inl hfq.symm
    · simp only [hk, if_neg, not_false_iff] at hfq
      exact Or.inr (hfq ▸ hq)
  · rcases List.mem_append.mp h with h1 | h1
    · exact Or.inr h1
    · simp at h1
      exact Or.inl h1

/-- Every entry the indicator loop records has a positive count and comes
from an actual qualifying column, under its cleaned label and with its true
count. -/
theorem aggIndicator_sound (df : DF) (pre excl : String) :
    ∀ p ∈ aggIndicator df pre excl, 0 < p.2 ∧
      ∃ c ∈ df.cols, strStartsWith c pre = true ∧ c ≠ excl ∧
        p.1 = cleanName pre c ∧ p.2 = countOne df c := by
  have main : ∀ (cs : List String) (d0 : List (String × Nat)),
      (∀ c ∈ cs, c ∈ df.cols ∧ strStartsWith c pre = true ∧ c ≠ excl) →
      (∀ p ∈ d0, 0 < p.2 ∧
        ∃ c ∈ df.cols, strStartsWith c pre = true ∧ c ≠ excl ∧
          p.1 = cleanName pre c ∧ p.2 = countOne df c) →
      ∀ p ∈ cs.foldl
          (fun d c =>
            let qtd := countOne df c
            if 0 < qtd then dictInsert d (cleanName pre c) qtd else d) d0,
        0 < p.2 ∧
        ∃ c ∈ df.cols, strStartsWith c pre = true ∧ c ≠ excl ∧
          p.1 = cleanName pre c ∧ p.2 = countOne df c := by
    intro cs
    induction cs with
    | nil => intro d0 _ hd0 p hp; exact hd0 p hp
    | cons c cs ih =>
      intro d0 hcs hd0 p hp
      simp only [List.foldl_cons] at hp
      refine ih _ (fun x hx => hcs x (List.mem_cons_of_mem _ hx)) ?_ p hp
      intro q hq
      by_cases hpos : 0 < countOne df c
      · simp only [hpos, if_pos] at hq
        rcases dictInsert_mem hq with rfl | hq2
        · obtain ⟨hmem, hsw, hne⟩ := hcs c (List.mem_cons_self _ _)
          exact ⟨hpos, c, hmem, hsw, hne, rfl, rfl⟩
        · exact hd0 q hq2
      · simp only [hpos, if_neg, not_false_iff] at hq
        exact hd0 q hq
  intro p hp
  refine main (indicatorCols df pre excl) [] ?_ (by simp) p hp
  intro c hc
  unfold indicatorCols at hc
  rw [List.mem_filter] at hc
  obtain ⟨hmem, hcond⟩ := hc
  rw [Bool.and_eq_true, decide_eq_true_eq] at hcond
  exact ⟨hmem, hcond.1, hcond.2⟩

theorem mem_insertDesc {x p : String × Nat} :
    ∀ {l : List (String × Nat)}, x ∈ insertDesc p l → x = p ∨ x ∈ l := by
  intro l
  induction l with
  | nil => intro h; simpa [insertDesc] using h
  | cons q t ih =>
    intro h
    unfold insertDesc at h
    split at h
    · rcases List.mem_cons.mp h with h | h
      · exact Or.inl h
      · exact Or.inr h
    · rcases List.mem_cons.mp h with h | h
      · exact Or.inr (by simp [h])
      · rcases ih h with h1 | h1
        · exact Or.inl h1
        · exact Or.inr (List.mem_cons_of_mem _ h1)

theorem insertDesc_pairwise {p : String × Nat} :
    ∀ {l : List (String × Nat)}, List.Pairwise (fun a b => b.2 ≤ a.2) l →
      List.Pairwise (fun a b => b.2 ≤ a.2) (insertDesc p l) := by
  intro l
  induction l with
  | nil => intro _; simp [insertDesc]
  | cons q t ih =>
    intro h
    rw [List.pairwise_cons] at h
    obtain ⟨hq, ht⟩ := h
    unfold insertDesc
    split
    · rename_i hle
      rw [List.pairwise_cons]
      refine ⟨?_, List.pairwise_cons.mpr ⟨hq, ht⟩⟩
      intro x hx
      rcases List.mem_cons.mp hx with rfl | hx2
      · exact hle
      · exact le_trans (hq x hx2) hle
    · rename_i hgt
      rw [List.pairwise_cons]
      refine ⟨?_, ih ht⟩
      intro x hx
      rcases mem_insertDesc hx with rfl | hx2
      · exact le_of_lt (Nat.lt_of_not_le hgt)
      · exact hq x hx2

theorem sortDesc_pairwise (l : List (String × Nat)) :
    List.Pairwise (fun a b => b.2 ≤ a.2) (sortDesc l) := by
  induction l with
  | nil => simp [sortDesc]
  | cons p t ih => exact insertDesc_pairwise ih

theorem topN_pairwise (n : Nat) (l : List (String × Nat)) :
    List.Pairwise (fun a b => b.2 ≤ a.2) (topN n l) :=
  List.Pairwise.sublist (List.take_sublist n (sortDesc l)) (sortDesc_pairwise l)

theorem topN_length (n : Nat) (l : List (String × Nat)) :
    (topN n l).length ≤ n :=
  List.length_take_le n (sortDesc l)

/-- Floor division of the day difference by 365.25, as the code computes it,
is the floor the specification states. -/
theorem fdiv_days_eq_floor (d : Int) :
    Int.fdiv (4 * d) 1461 = ⌊(d : ℚ) / (365.25 : ℚ)⌋ := by
  rw [Int.fdiv_eq_ediv _ (by norm_num)]
  have h1 : (d : ℚ) / (365.25 : ℚ) = ((4 * d : ℤ) : ℚ) / ((1461 : ℕ) : ℚ) := by
    push_cast
    rw [div_eq_div_iff (by norm_num) (by norm_num)]
    ring
  rw [h1, Rat.floor_intCast_div_natCast]
  norm_num

/-- The five bracket labels of `pd.cut` (line 42). -/
def faixaLabels : List Value :=
  [.str "Criança (0-9)", .str "Adolescente (10-19)", .str "Jovem (20-24)",
   .str "Adulta (25-59)", .str "Idosa (60+)"]

/-! ## The claims -/

/-- C1, counterexample: two post-load steps do raise when their column is
absent.  A source without the date columns makes the unguarded year
derivation of line 37 raise a KeyError, and a table without `VIOL_FISIC`
makes the metric of line 81 raise, instead of skipping the derived output. -/
theorem c1_counterexample :
    prepare ⟨["CS_SEXO"], [[("CS_SEXO", Value.int 2)]]⟩
        = Except.error "KeyError: DT_NOTIFIC"
    ∧ viol_fisica ⟨["ANO_NOTIFICACAO"], []⟩
        = Except.error "KeyError: VIOL_FISIC" :=
  ⟨rfl, rfl⟩

/-- C1, amended: the steps guarded by a column-presence check (sex filter,
date parsing, alcohol and marital decoding, the perpetrator-sex chart) do
skip their derived output when the column is absent, and preparation
succeeds whenever `DT_NOTIFIC` and `DT_NASC` are present; but the year/age
derivations raise a KeyError when `DT_NOTIFIC` or `DT_NASC` is absent, and
the physical-violence and alcohol count metrics raise when `VIOL_FISIC` or
`AUTOR_ALCO` is absent. -/
theorem c1_theorem : ∀ df : DF,
    (df.hasCol "CS_SEXO" = false → sexFilter df = df)
    ∧ (df.hasCol "AUTOR_ALCO" = false → alcoStep df = df)
    ∧ (df.hasCol "SIT_CONJUG" = false → conjugStep df = df)
    ∧ (df.hasCol "AUTOR_SEXO" = false → sexoAutorStep df = df)
    ∧ (df.hasCol "DT_NOTIFIC" = true → df.hasCol "DT_NASC" = true →
        ∃ d, prepare df = Except.ok d)
    ∧ (df.hasCol "DT_NOTIFIC" = false →
        prepare df = Except.error "KeyError: DT_NOTIFIC")
    ∧ (df.hasCol "DT_NOTIFIC" = true → df.hasCol "DT_NASC" = false →
        prepare df = Except.error "KeyError: DT_NASC")
    ∧ (df.hasCol "VIOL_FISIC" = false →
        viol_fisica df = Except.error "KeyError: VIOL_FISIC")
    ∧ (df.hasCol "VIOL_FISIC" = true → ∃ n, viol_fisica df = Except.ok n)
    ∧ (df.hasCol "AUTOR_ALCO" = false →
        alcool_sim df = Except.error "KeyError: False") := by
  intro df
  have hn : (dateStep (sexFilter df)).hasCol "DT_NOTIFIC" = df.hasCol "DT_NOTIFIC" := by
    rw [dateStep_hasCol, sexFilter_hasCol]
  have hb : (dateStep (sexFilter df)).hasCol "DT_NASC" = df.hasCol "DT_NASC" := by
    rw [dateStep_hasCol, sexFilter_hasCol]
  refine ⟨?_, ?_, ?_, ?_, ?_, ?_, ?_, ?_, ?_, ?_⟩
  · intro h; simp [sexFilter, h]
  · intro h; simp [alcoStep, h]
  · intro h; simp [conjugStep, h]
  · intro h; simp [sexoAutorStep, h]
  · intro h1 h2
    have e1 : (dateStep (sexFilter df)).hasCol "DT_NOTIFIC" = true := by rw [hn]; exact h1
    have e2 : (dateStep (sexFilter df)).hasCol "DT_NASC" = true := by rw [hb]; exact h2
    have hy : yearStep (dateStep (sexFilter df))
        = Except.ok ((dateStep (sexFilter df)).addCol "ANO_NOTIFICACAO"
            (fun r => yearOf (r.get "DT_NOTIFIC"))) := by
      simp [yearStep, e1]
    have e3 := DF.hasCol_addCol_of (dateStep (sexFilter df)) "ANO_NOTIFICACAO"
      "DT_NOTIFIC" (fun r => yearOf (r.get "DT_NOTIFIC")) e1
    have e4 := DF.hasCol_addCol_of (dateStep (sexFilter df)) "ANO_NOTIFICACAO"
      "DT_NASC" (fun r => yearOf (r.get "DT_NOTIFIC")) e2
    unfold prepare
    rw [hy]
    simp [ageStep, e3, e4]
  · intro h
    have e1 : (dateStep (sexFilter df)).hasCol "DT_NOTIFIC" = false := by rw [hn]; exact h
    unfold prepare
    simp [yearStep, e1]
  · intro h1 h2
    have e1 : (dateStep (sexFilter df)).hasCol "DT_NOTIFIC" = true := by rw [hn]; exact h1
    have e2 : (dateStep (sexFilter df)).hasCol "DT_NASC" = false := by rw [hb]; exact h2
    have hy : yearStep (dateStep (sexFilter df))
        = Except.ok ((dateStep (sexFilter df)).addCol "ANO_NOTIFICACAO"
            (fun r => yearOf (r.get "DT_NOTIFIC"))) := by
      simp [yearStep, e1]
    have e3 := DF.hasCol_addCol_of (dateStep (sexFilter df)) "ANO_NOTIFICACAO"
      "DT_NOTIFIC" (fun r => yearOf (r.get "DT_NOTIFIC")) e1
    have e4 : ((dateStep (sexFilter df)).addCol "ANO_NOTIFICACAO"
        (fun r => yearOf (r.get "DT_NOTIFIC"))).hasCol "DT_NASC" = false := by
      rw [DF.hasCol, decide_eq_false_iff_not, DF.addCol_cols]
      rw [DF.hasCol, decide_eq_false_iff_not] at e2
      split
      · exact e2
      · intro hmem
        rcases List.mem_append.mp hmem with hmem | hmem
        · exact e2 hmem
        · simp at hmem
    unfold prepare
    rw [hy]
    simp [ageStep, e3, e4]
  · intro h; simp [viol_fisica, h]
  · intro h; simp [viol_fisica, h]
  · intro h; simp [alcool_sim, h]

/-- C2, counterexample: age 0 lies in the claimed domain `[0,120]` but gets
no bracket; the bins of `pd.cut` are left-open, so the first interval is
(0,9] and excludes 0.  A row notified on its own birth date reaches the
enriched table with computed age 0 and an empty bracket. -/
theorem c2_counterexample :
    faixaOf (Value.int 0) = Value.na
    ∧ Value.na ∉ faixaLabels
    ∧ (prepare exAgeZero).toOption.map
        (fun d => d.rows.map (fun r => (r.get "IDADE_CALCULADA", r.get "FAIXA_ETARIA")))
      = some [(Value.int 0, Value.na)] :=
  ⟨rfl, by decide, by decide⟩

/-- C2, amended: bracket assignment is total over `[1,120]` (equivalently
the half-open domain `(0,120]`): every age there gets exactly one of the
five ordered labels, while age 0, ages outside the domain and the undefined
age get no bracket and never an error. -/
theorem c2_theorem : ∀ a : Int,
    (1 ≤ a → a ≤ 120 → faixaOf (Value.int a) ∈ faixaLabels)
    ∧ (a ≤ 0 → faixaOf (Value.int a) = Value.na)
    ∧ (120 < a → faixaOf (Value.int a) = Value.na)
    ∧ faixaOf Value.na = Value.na
    ∧ faixaOf (Value.int 1) = Value.str "Criança (0-9)" := by
  intro a
  refine ⟨?_, ?_, ?_, rfl, by decide⟩
  · intro h1 h2
    simp only [faixaOf]
    split_ifs <;> first | (exfalso; omega) | simp [faixaLabels]
  · intro h
    simp only [faixaOf]
    split_ifs <;> first | rfl | (exfalso; omega)
  · intro h
    simp only [faixaOf]
    split_ifs <;> first | rfl | (exfalso; omega)

/-- C3, counterexample: the perpetrator-sex chart (line 203) assigns the new
column `SEXO_AUTOR_DESC` to the year-filtered sub-view, so that presentation
step does modify a sub-view. -/
theorem c3_counterexample :
    (sexoAutorStep (yearFilter exView [Value.int 2020])).cols
      ≠ (yearFilter exView [Value.int 2020]).cols := by
  decide

/-- C3, amended: the year filter derives a read-only sub-view (same columns,
rows drawn from the cached table), and every presentation step except the
perpetrator-sex chart leaves its input table unchanged; that one step, when
`AUTOR_SEXO` is present, appends the single derived column
`SEXO_AUTOR_DESC` to the sub-view and leaves the values of every other
column untouched (the cached table itself is not modified). -/
theorem c3_theorem : ∀ (df : DF) (anos : List Value) (v : DF),
    (yearFilter df anos).cols = df.cols
    ∧ (∀ r ∈ (yearFilter df anos).rows, r ∈ df.rows)
    ∧ (v.hasCol "AUTOR_SEXO" = false → sexoAutorStep v = v)
    ∧ (v.hasCol "SEXO_AUTOR_DESC" = false → v.hasCol "AUTOR_SEXO" = true →
        (sexoAutorStep v).cols = v.cols ++ ["SEXO_AUTOR_DESC"])
    ∧ (∀ c2, c2 ≠ "SEXO_AUTOR_DESC" →
        (sexoAutorStep v).rows.map (fun r => r.get c2)
          = v.rows.map (fun r => r.get c2)) := by
  intro df anos v
  refine ⟨rfl, ?_, ?_, ?_, ?_⟩
  · intro r hr
    exact (List.mem_filter.mp hr).1
  · intro h; simp [sexoAutorStep, h]
  · intro h1 h2
    simp [sexoAutorStep, h2, DF.addCol_cols, h1]
  · intro c2 hc2
    unfold sexoAutorStep
    split
    · rw [DF.addCol_rows, List.map_map]
      apply List.map_congr_left
      intro r _
      show (r.set "SEXO_AUTOR_DESC" _).get c2 = r.get c2
      rw [Row.get_set, if_neg (fun hh => hc2 hh.symm)]
    · rfl

/-- C4: for a row with both dates, the derived age is the floor of the day
difference divided by 365.25, and it is undefined when either date is
missing; the scenario row (notified 2021-03-10, born 2011-03-11, a 3652-day
difference) gets age 9 and the bracket Criança (0-9). -/
theorem c4_theorem : ∀ n b : Int,
    ageOf (Value.date n) (Value.date b)
      = Value.int ⌊((n : ℚ) - (b : ℚ)) / (365.25 : ℚ)⌋
    ∧ (∀ v : Value, ageOf Value.na v = Value.na ∧ ageOf v Value.na = Value.na)
    ∧ daysFromCivil 2021 3 10 - daysFromCivil 2011 3 11 = 3652
    ∧ (prepare exScenario).toOption.map
        (fun d => d.rows.map (fun r => (r.get "IDADE_CALCULADA", r.get "FAIXA_ETARIA")))
      = some [(Value.int 9, Value.str "Criança (0-9)")] := by
  intro n b
  refine ⟨?_, ?_, by decide, by decide⟩
  · show Value.int (Int.fdiv (4 * (n - b)) 1461) = _
    rw [fdiv_days_eq_floor]
    congr 1
    push_cast
    ring_nf
  · intro v
    exact ⟨by cases v <;> rfl, by cases v <;> rfl⟩

/-- C5: bracket membership follows the right-closed boundaries at 9, 19,
24, 59 and 120 (each label holds exactly on its interval), and in
particular 9 is a child, 10 an adolescent, 24 a young adult, 25 and 59
adults, 60 elderly, while 121 and the undefined age get no bracket. -/
theorem c5_theorem : ∀ a : Int,
    (faixaOf (Value.int a) = Value.str "Criança (0-9)" ↔ 0 < a ∧ a ≤ 9)
    ∧ (faixaOf (Value.int a) = Value.str "Adolescente (10-19)" ↔ 9 < a ∧ a ≤ 19)
    ∧ (faixaOf (Value.int a) = Value.str "Jovem (20-24)" ↔ 19 < a ∧ a ≤ 24)
    ∧ (faixaOf (Value.int a) = Value.str "Adulta (25-59)" ↔ 24 < a ∧ a ≤ 59)
    ∧ (faixaOf (Value.int a) = Value.str "Idosa (60+)" ↔ 59 < a ∧ a ≤ 120)
    ∧ ((a ≤ 0 ∨ 120 < a) → faixaOf (Value.int a) = Value.na)
    ∧ faixaOf Value.na = Value.na
    ∧ faixaOf (Value.int 9) = Value.str "Criança (0-9)"
    ∧ faixaOf (Value.int 10) = Value.str "Adolescente (10-19)"
    ∧ faixaOf (Value.int 24) = Value.str "Jovem (20-24)"
    ∧ faixaOf (Value.int 25) = Value.str "Adulta (25-59)"
    ∧ faixaOf (Value.int 59) = Value.str "Adulta (25-59)"
    ∧ faixaOf (Value.int 60) = Value.str "Idosa (60+)"
    ∧ faixaOf (Value.int 121) = Value.na := by
  intro a
  refine ⟨?_, ?_, ?_, ?_, ?_, ?_, rfl, by decide, by decide, by decide,
    by decide, by decide, by decide, by decide⟩ <;>
    [skip; skip; skip; skip; skip;
      (intro h; simp only [faixaOf]; split_ifs <;> first | rfl | (exfalso; omega))] <;>
  · constructor
    · intro h
      simp only [faixaOf] at h
      split_ifs at h <;>
        first
          | exact ⟨by omega, by omega⟩
          | (exact absurd (Value.str.inj h) (by decide))
          | simp at h
    · intro h
      simp only [faixaOf]
      split_ifs <;> first | rfl | (exfalso; omega)

/-- C6: with the sex column present, every row surviving the population
filter carries one of the accepted female encodings (the string and numeric
forms of code 2 included), a row with sex code 1 is excluded, and with the
column absent the filter is skipped and all rows pass. -/
theorem c6_theorem : ∀ df : DF,
    (df.hasCol "CS_SEXO" = true →
      ∀ r ∈ (sexFilter df).rows, r.get "CS_SEXO" ∈ femaleCodes)
    ∧ (df.hasCol "CS_SEXO" = true →
      ∀ r ∈ df.rows, r.get "CS_SEXO" = Value.int 1 → r ∉ (sexFilter df).rows)
    ∧ (df.hasCol "CS_SEXO" = false → sexFilter df = df)
    ∧ Value.str "2" ∈ femaleCodes ∧ Value.int 2 ∈ femaleCodes
    ∧ (sexFilter exSexo).rows.map (fun r => r.get "CS_SEXO") = [Value.int 2] := by
  intro df
  refine ⟨?_, ?_, ?_, by decide, by decide, by decide⟩
  · intro h r hr
    unfold sexFilter at hr
    rw [if_pos h] at hr
    have := (List.mem_filter.mp hr).2
    exact of_decide_eq_true this
  · intro h r _ h1 hmem
    unfold sexFilter at hmem
    rw [if_pos h] at hmem
    have := (List.mem_filter.mp hmem).2
    have h2 := of_decide_eq_true this
    rw [h1] at h2
    exact absurd h2 (by decide)
  · intro h; simp [sexFilter, h]

/-- C7, counterexample: the code labels a column with
`col.replace('AG_', '')`, which removes every occurrence of the family
marker, not only the leading one; on the column `AG_AG_FOGO` the produced
label is Fogo while stripping the family marker from the front gives
Ag_Fogo. -/
theorem c7_counterexample :
    dados_meio exMeioNested = [("Fogo", 1)]
    ∧ specStripLabel "AG_" "AG_AG_FOGO" = "Ag_Fogo"
    ∧ cleanName "AG_" "AG_AG_FOGO" ≠ specStripLabel "AG_" "AG_AG_FOGO" :=
  ⟨by decide, by decide, by decide⟩

/-- C7, amended: for both indicator families, the aggregation contains no
zero-count entry, each entry comes from an actual qualifying column of its
family carrying the count of rows with the present code and the label
obtained by removing every occurrence of the family marker and
title-casing, and the top-N truncation returns at most N entries in
non-increasing count order. -/
theorem c7_theorem : ∀ (df : DF) (n : Nat),
    (∀ p ∈ dados_meio df, 0 < p.2 ∧
      ∃ c ∈ df.cols, strStartsWith c "AG_" = true ∧ c ≠ "AG_OUTROS" ∧
        p.1 = cleanName "AG_" c ∧ p.2 = countOne df c)
    ∧ (∀ p ∈ dados_vinculo df, 0 < p.2 ∧
      ∃ c ∈ df.cols, strStartsWith c "REL_" = true ∧ c ≠ "REL_TRAB" ∧
        p.1 = cleanName "REL_" c ∧ p.2 = countOne df c)
    ∧ (topN n (dados_meio df)).length ≤ n
    ∧ List.Pairwise (fun p q => q.2 ≤ p.2) (topN n (dados_meio df))
    ∧ (topN n (dados_vinculo df)).length ≤ n
    ∧ List.Pairwise (fun p q => q.2 ≤ p.2) (topN n (dados_vinculo df))
    ∧ df_meio exMeio = [("Forca", 2), ("Fogo", 1)] := by
  intro df n
  exact ⟨aggIndicator_sound df "AG_" "AG_OUTROS",
    aggIndicator_sound df "REL_" "REL_TRAB",
    topN_length n (dados_meio df), topN_pairwise n (dados_meio df),
    topN_length n (dados_vinculo df), topN_pairwise n (dados_vinculo df),
    by decide⟩

/-- C8: for the three decode tables, any code outside the table (the
missing value included) decodes to the explicit Ignorado label, the decoded
value is always a string (never a null), alcohol code 9 decodes to Ignorado
and code 1 to Sim; and when `AUTOR_ALCO` is present every enriched row
carries a string in `ALCOOL_DESC`. -/
theorem c8_theorem : ∀ v : Value,
    (map_sinan v = none → decodeWith map_sinan v = Value.str "Ignorado")
    ∧ (map_conjugal v = none → decodeWith map_conjugal v = Value.str "Ignorado")
    ∧ (map_sexo v = none → decodeWith map_sexo v = Value.str "Ignorado")
    ∧ (∃ s, decodeWith map_sinan v = Value.str s)
    ∧ (∃ s, decodeWith map_conjugal v = Value.str s)
    ∧ (∃ s, decodeWith map_sexo v = Value.str s)
    ∧ decodeWith map_sinan Value.na = Value.str "Ignorado"
    ∧ decodeWith map_conjugal Value.na = Value.str "Ignorado"
    ∧ decodeWith map_sexo Value.na = Value.str "Ignorado"
    ∧ decodeWith map_sinan (Value.int 9) = Value.str "Ignorado"
    ∧ decodeWith map_sinan (Value.int 1) = Value.str "Sim"
    ∧ (∀ df : DF, df.hasCol "AUTOR_ALCO" = true →
        ∀ r ∈ (alcoStep df).rows, ∃ s, r.get "ALCOOL_DESC" = Value.str s) := by
  intro v
  refine ⟨?_, ?_, ?_, decodeWith_isStr _ _, decodeWith_isStr _ _,
    decodeWith_isStr _ _, rfl, rfl, rfl, rfl, rfl, ?_⟩
  · intro h; simp [decodeWith, h]
  · intro h; simp [decodeWith, h]
  · intro h; simp [decodeWith, h]
  · intro df h r hr
    unfold alcoStep at hr
    rw [if_pos h] at hr
    rw [DF.addCol_rows] at hr
    obtain ⟨r0, _, rfl⟩ := List.mem_map.mp hr
    rw [Row.get_set]
    rw [if_pos rfl]
    exact decodeWith_isStr _ _

/-- C9: the percentage-of-subset metric is exactly 0 on an empty subset
whatever the numerator, equals numerator over subset size times 100 on a
non-empty subset, and the alcohol metric instantiates it with the count of
rows with the present code when the column exists. -/
theorem c9_theorem : ∀ (num : Nat) (df : DF),
    (df.rows = [] → pct_of num df = 0)
    ∧ (df.rows ≠ [] →
        pct_of num df = (num : ℚ) / (df.rows.length : ℚ) * 100)
    ∧ (df.hasCol "AUTOR_ALCO" = true →
        pct_alcool df = Except.ok (pct_of (countEq df "AUTOR_ALCO" (Value.int 1)) df))
    ∧ pct_of 7 (DF.mk ["AUTOR_ALCO"] []) = 0 := by
  intro num df
  refine ⟨?_, ?_, ?_, rfl⟩
  · intro h; simp [pct_of, h]
  · intro h
    have hp : 0 < df.rows.length := List.length_pos.mpr h
    simp [pct_of, hp]
  · intro h
    simp [pct_alcool, alcool_sim, h, countEq, countOne]

/-- C10: a failed spreadsheet read yields the explicit unavailable outcome
carrying the human-readable cause, no table at all, and the page renders
the awaiting-data placeholder instead of the dashboard. -/
theorem c10_theorem : ∀ e : String,
    load_data (Except.error e)
      = LoadResult.unavailable ("Erro ao ler o arquivo: " ++ e)
    ∧ (load_data (Except.error e)).tableOf = none
    ∧ render (load_data (Except.error e))
      = AppOutput.placeholder "Aguardando carregamento dos dados." := by
  intro e
  exact ⟨rfl, rfl, rfl⟩

end ViolenciaTIY
